import Mathlib

/-!
Verification of the RobotSpareBin automation script (`src/tasks.py`).

The script is shallowly embedded as computations in a writer-plus-exception
monad `M α = Except Exc α × Trace`: every external interaction (browser,
HTTP download, workbook, PDF renderer) emits a `Event` into the trace and
takes its outcome from an explicit collaborator environment `Env`.
Python `try/except` is `tryCatch`; `raise` is `throw`; the `try/finally`
of the top-level task is encoded as sequencing, which is faithful because
the `except Exception` handler only logs and never raises.
-/

namespace RSB

/-- A Python value as it appears in a spreadsheet cell / form argument:
a string, a number, or `None`. -/
inductive Val where
  | vStr (s : String)
  | vNum (n : Int)
  | vNone
deriving DecidableEq

/-- Python `str()` applied to a cell value (used by
`str(sales_rep["Sales Target"])` and `str(sales_rep["Sales"])`). -/
def strV : Val → String
  | .vStr s => s
  | .vNum n => toString n
  | .vNone => "None"

/-- The exceptions the script can raise or observe: the script defined
`ProcessError(msg)`, a `KeyError` from a missing row field, an arbitrary
exception coming from a collaborator, and the tenacity `RetryError`
wrapping the exception of the last attempt. -/
inductive Exc where
  | processError (msg : String)
  | keyError (key : String)
  | external (msg : String)
  | retryError (inner : Exc)
deriving DecidableEq

/-- The message text carried by an exception (Python `str(e)`;
for `KeyError` we keep just the key, for `RetryError` a fixed prefix
plus the wrapped message). -/
def excMsg : Exc → String
  | .processError m => m
  | .keyError k => k
  | .external m => m
  | .retryError e => "RetryError: " ++ excMsg e

/-- One row of the worksheet, as RPA returns it with `header=True`:
an association of header names to cell values; `row["X"]` is a lookup
that raises `KeyError` when the header is absent. -/
abbrev Row := List (String × Val)

/-- Log levels used by the script. -/
inductive Lvl where
  | info
  | error
deriving DecidableEq

/-- The log messages the script emits (one constructor per `logger.info` /
`logger.error` call site in `src/tasks.py`, carrying the interpolated
values of the corresponding f-string). -/
inductive Msg where
  | startingProcess
  | processCompleted
  | unexpectedError (e : Exc)
  | initializingBrowser
  | credsMissing
  | initComplete
  | initFailed (e : Exc)
  | attemptingLogin
  | loginSuccessful
  | loginFailed
  | downloadingExcel
  | downloadSuccess
  | downloadFailed
  | processingRows (n : Nat)
  | processingDataFor (fn ln : String)
  | allProcessed
  | errorDuringProcessing (e : Exc)
  | formSubmittedFor (fn ln : String)
  | failedSubmit (row : Row) (e : Exc)
  | errorProcessingRow (row : Row) (e : Exc)
  | takingScreenshot
  | screenshotSaved (path : String)
  | pdfSaved (path : String)
  | loggedOut
  | endProcessFailed (e : Exc)
deriving DecidableEq

/-- Observable events of a run: log records and every call that leaves
the process (browser UI actions, network download, workbook and file
operations, the retry sleep). -/
inductive Event where
  | log (lvl : Lvl) (msg : Msg)
  | browserConfigure (slowmo : Nat)
  | browserGoto (url : String)
  | pageFill (selector : String) (value : Val)
  | pageSelectOption (selector : String) (value : String)
  | pageClick (selector : String)
  | httpDownload (url : String) (overwrite : Bool)
  | sleep (seconds : Nat)
  | openWorkbook (path : String)
  | readWorksheet (sheet : String)
  | closeWorkbook
  | screenshot (path : String)
  | readRegion (selector : String)
  | htmlToPdf (path : String)
deriving DecidableEq

abbrev Trace := List Event

/-- The run monad: a result (or uncaught exception) together with the
trace of events emitted so far.  Unlike `ExceptT _ (Except _)`, the trace
survives an exception, matching how logging and side effects behave in
Python. -/
abbrev M (α : Type) := Except Exc α × Trace

instance : Monad M where
  pure a := (.ok a, [])
  bind x f :=
    match x.1 with
    | .error e => (.error e, x.2)
    | .ok a => ((f a).1, x.2 ++ (f a).2)

instance : MonadExceptOf Exc M where
  throw e := (.error e, [])
  tryCatch x h :=
    match x.1 with
    | .ok a => (.ok a, x.2)
    | .error e => ((h e).1, x.2 ++ (h e).2)

/-- Emit an event that cannot fail (logging, local configuration). -/
def tell (e : Event) : M Unit := (.ok (), [e])

def logInfo (m : Msg) : M Unit := tell (.log .info m)

def logError (m : Msg) : M Unit := tell (.log .error m)

/-- An external call: the event is recorded whether or not the call
raises; the outcome comes from the environment. -/
def extCall (e : Event) (r : Except Exc Unit) : M Unit :=
  match r with
  | .ok _ => (.ok (), [e])
  | .error ex => (.error ex, [e])

/-- Lift a pure outcome (no event of its own). -/
def liftE (r : Except Exc α) : M α := (r, [])

/-- Python `row["key"]`: dictionary access on a worksheet row; raises `KeyError`
when the header is absent. -/
def rowGet (row : Row) (key : String) : M Val :=
  match List.lookup key row with
  | some v => (.ok v, [])
  | none => (.error (.keyError key), [])

/-- Everything the collaborators of the script may do: the credentials found in
the environment, and the outcome of every external call (download outcomes
are indexed by the attempt number, since a retried download may behave
differently per attempt). -/
structure Env where
  username : Option String
  password : Option String
  gotoResult : String → Except Exc Unit
  fillResult : String → Val → Except Exc Unit
  selectResult : String → String → Except Exc Unit
  clickResult : String → Except Exc Unit
  downloadResult : Nat → Except Exc Unit
  openWorkbookResult : Except Exc Unit
  readWorksheetResult : Except Exc (List Row)
  screenshotResult : Except Exc Unit
  readRegionResult : Except Exc String
  htmlToPdfResult : String → Except Exc Unit

def siteUrl : String := "https://robotsparebinindustries.com/"

def dataUrl : String := "https://robotsparebinindustries.com/SalesData.xlsx"

/-- The value Python passes to `page.fill` for a credential read with
`os.getenv` (the string, or `None` when the variable is absent). -/
def optVal : Option String → Val
  | some s => .vStr s
  | none => .vNone

/-- Function `log_in` of `src/tasks.py`: fill the two credential fields, click the
login button; on any failure log "Login failed." and raise
`ProcessError("Login failed.")`. -/
def log_in (env : Env) : M Unit :=
  tryCatch
    (do
      logInfo .attemptingLogin
      extCall (.pageFill "#username" (optVal env.username))
        (env.fillResult "#username" (optVal env.username))
      extCall (.pageFill "#password" (optVal env.password))
        (env.fillResult "#password" (optVal env.password))
      extCall (.pageClick "button:text(Log in)")
        (env.clickResult "button:text(Log in)")
      logInfo .loginSuccessful)
    (fun _ : Exc => do
      logError .loginFailed
      throw (Exc.processError "Login failed."))

/-- Python truthiness of `not USERNAME or not PASSWORD`: a credential is
missing when the variable is absent or the empty string. -/
def credsMissing (env : Env) : Bool :=
  (env.username.getD "" == "") || (env.password.getD "" == "")

/-- The `if not USERNAME or not PASSWORD: ... raise` block of
`initialize_bot`: log and raise when a credential is missing, otherwise
do nothing. -/
def checkCreds (env : Env) : M Unit :=
  if credsMissing env then do
    logError .credsMissing
    throw (Exc.processError
      "Environment variables USERNAME and PASSWORD are required.")
  else pure ()

/-- Function `initialize_bot` of `src/tasks.py`: check the credentials, then
configure the browser, navigate to the site and log in; any failure is
logged and re-raised as `ProcessError("Initialization failed.")`. -/
def initialize_bot (env : Env) : M Unit :=
  tryCatch
    (do
      logInfo .initializingBrowser
      checkCreds env
      tell (.browserConfigure 100)
      extCall (.browserGoto siteUrl) (env.gotoResult siteUrl)
      log_in env
      logInfo .initComplete)
    (fun e : Exc => do
      logError (.initFailed e)
      throw (Exc.processError "Initialization failed."))

/-- One attempt of the body of `download_excel_file`: download the spreadsheet
(with `overwrite=True`); on failure log and raise
`ProcessError("Failed to download Excel file.")`. -/
def download_attempt (env : Env) (attempt : Nat) : M Unit :=
  tryCatch
    (do
      logInfo .downloadingExcel
      extCall (.httpDownload dataUrl true) (env.downloadResult attempt)
      logInfo .downloadSuccess)
    (fun _ : Exc => do
      logError .downloadFailed
      throw (Exc.processError "Failed to download Excel file."))

/-- The tenacity decorator `@retry(stop=stop_after_attempt(3), wait=wait_fixed(2))`:
run the attempt; while retries remain, wait 2 seconds and try again;
when the stop condition is reached, raise `RetryError` wrapping the last
exception of the last attempt. -/
def downloadRetry (env : Env) : Nat → Nat → M Unit
  | attempt, 0 =>
    tryCatch (download_attempt env attempt)
      (fun e : Exc => throw (Exc.retryError e))
  | attempt, remaining + 1 =>
    tryCatch (download_attempt env attempt)
      (fun _ : Exc => do
        tell (.sleep 2)
        downloadRetry env (attempt + 1) remaining)

/-- Function `download_excel_file` of `src/tasks.py`: the retry-decorated download,
3 attempts in total. -/
def download_excel_file (env : Env) : M Unit := downloadRetry env 0 2

/-- Function `fill_and_submit_sales_form` of `src/tasks.py`: fill first and last
name with the raw cell values, the sales target and sales result through
`str(...)`, click Submit, log success; on any failure log the row and
re-raise the original exception. -/
def fill_and_submit_sales_form (env : Env) (sales_rep : Row) : M Unit :=
  tryCatch
    (do
      let fn ← rowGet sales_rep "First Name"
      extCall (.pageFill "#firstname" fn) (env.fillResult "#firstname" fn)
      let ln ← rowGet sales_rep "Last Name"
      extCall (.pageFill "#lastname" ln) (env.fillResult "#lastname" ln)
      let st ← rowGet sales_rep "Sales Target"
      extCall (.pageSelectOption "#salestarget" (strV st))
        (env.selectResult "#salestarget" (strV st))
      let sa ← rowGet sales_rep "Sales"
      extCall (.pageFill "#salesresult" (Val.vStr (strV sa)))
        (env.fillResult "#salesresult" (Val.vStr (strV sa)))
      extCall (.pageClick "text=Submit") (env.clickResult "text=Submit")
      let fn2 ← rowGet sales_rep "First Name"
      let ln2 ← rowGet sales_rep "Last Name"
      logInfo (.formSubmittedFor (strV fn2) (strV ln2)))
    (fun e : Exc => do
      logError (.failedSubmit sales_rep e)
      throw e)

/-- The body of the `for row in data_rows` loop before its handler:
the intent log (whose f-string itself performs two row accesses) followed
by the form submission. -/
def processRowBody (env : Env) (row : Row) : M Unit := do
  let fn ← rowGet row "First Name"
  let ln ← rowGet row "Last Name"
  logInfo (.processingDataFor (strV fn) (strV ln))
  fill_and_submit_sales_form env row

/-- One iteration of the loop: any exception from the body is caught,
logged, and the loop continues. -/
def processRowStep (env : Env) (row : Row) : M Unit :=
  tryCatch (processRowBody env row)
    (fun e : Exc => logError (.errorProcessingRow row e))

/-- The `for row in data_rows` loop of `process_sales_data`. -/
def processRows (env : Env) : List Row → M Unit
  | [] => (.ok (), [])
  | row :: rest => do
    processRowStep env row
    processRows env rest

/-- Function `process_sales_data` of `src/tasks.py`: download, open the workbook,
read the `data` worksheet, close the workbook, loop over the rows; any
exception escaping that block is logged and re-raised as
`ProcessError("Failed to process sales data.")`. -/
def process_sales_data (env : Env) : M Unit :=
  tryCatch
    (do
      download_excel_file env
      extCall (.openWorkbook "SalesData.xlsx") env.openWorkbookResult
      tell (.readWorksheet "data")
      let data_rows ← liftE env.readWorksheetResult
      tell .closeWorkbook
      logInfo (.processingRows data_rows.length)
      processRows env data_rows
      logInfo .allProcessed)
    (fun e : Exc => do
      logError (.errorDuringProcessing e)
      throw (Exc.processError "Failed to process sales data."))

/-- Function `end_process` of `src/tasks.py`: screenshot, extract the results
region, render it to PDF, click "Log out" — all inside one `try` whose
handler only logs `"End process failed: ..."`. -/
def end_process (env : Env) : M Unit :=
  tryCatch
    (do
      logInfo .takingScreenshot
      extCall (.screenshot "output/sales_summary.png") env.screenshotResult
      logInfo (.screenshotSaved "output/sales_summary.png")
      tell (.readRegion "#sales-results")
      let html ← liftE env.readRegionResult
      extCall (.htmlToPdf "output/sales_results.pdf") (env.htmlToPdfResult html)
      logInfo (.pdfSaved "output/sales_results.pdf")
      extCall (.pageClick "text=Log out") (env.clickResult "text=Log out")
      logInfo .loggedOut)
    (fun e : Exc => logError (.endProcessFailed e))

/-- The `try/except` part of `robot_spare_bin_python`: run initialization
and processing; any exception is caught and logged. -/
def robotMain (env : Env) : M Unit :=
  tryCatch
    (do
      logInfo .startingProcess
      initialize_bot env
      process_sales_data env
      logInfo .processCompleted)
    (fun e : Exc => logError (.unexpectedError e))

/-- Function `robot_spare_bin_python` of `src/tasks.py`: the guarded main phase
followed unconditionally by `end_process` (the Python `finally`; since the
`except Exception` clause only logs, the `finally` is plain sequencing). -/
def robot_spare_bin_python (env : Env) : M Unit := do
  robotMain env
  end_process env

/-! ### Reduction lemmas for the run monad -/

@[simp] theorem throw_def {α : Type} (e : Exc) : (throw e : M α) = (.error e, []) := rfl

@[simp] theorem pure_def {α : Type} (a : α) : (pure a : M α) = (.ok a, []) := rfl

@[simp] theorem bind_pair_ok {α β : Type} (a : α) (t : Trace) (f : α → M β) :
    @Bind.bind M _ α β (Except.ok a, t) f = ((f a).1, t ++ (f a).2) := rfl

@[simp] theorem bind_pair_error {α β : Type} (e : Exc) (t : Trace) (f : α → M β) :
    @Bind.bind M _ α β (Except.error e, t) f = (Except.error e, t) := rfl

@[simp] theorem tryCatch_pair_ok {α : Type} (a : α) (t : Trace) (h : Exc → M α) :
    @tryCatch Exc M _ α (Except.ok a, t) h = (Except.ok a, t) := rfl

@[simp] theorem tryCatch_pair_error {α : Type} (e : Exc) (t : Trace) (h : Exc → M α) :
    @tryCatch Exc M _ α (Except.error e, t) h = ((h e).1, t ++ (h e).2) := rfl

theorem res_bind {α β : Type} (x : M α) (f : α → M β) :
    (x >>= f).1 =
      match x.1 with
      | .error e => Except.error e
      | .ok a => (f a).1 := by
  obtain ⟨r, t⟩ := x
  cases r <;> rfl

theorem tr_bind {α β : Type} (x : M α) (f : α → M β) :
    (x >>= f).2 =
      x.2 ++ (match x.1 with
              | .error _ => []
              | .ok a => (f a).2) := by
  obtain ⟨r, t⟩ := x
  cases r <;> simp

theorem res_tryCatch {α : Type} (x : M α) (h : Exc → M α) :
    (tryCatch x h).1 =
      match x.1 with
      | .ok a => Except.ok a
      | .error e => (h e).1 := by
  obtain ⟨r, t⟩ := x
  cases r <;> rfl

theorem tr_tryCatch {α : Type} (x : M α) (h : Exc → M α) :
    (tryCatch x h).2 =
      x.2 ++ (match x.1 with
              | .ok _ => []
              | .error e => (h e).2) := by
  obtain ⟨r, t⟩ := x
  cases r <;> simp

/-! ### Trace observations -/

/-- The log record emitted unconditionally as the first action of
`end_process` (marks that the finalizer phase executed). -/
def isShotLog : Event → Bool
  | .log .info .takingScreenshot => true
  | _ => false

/-- Any call that leaves the process (network or UI or file system);
log records and the retry sleep are not external calls. -/
def isExternalCall : Event → Bool
  | .log _ _ => false
  | .sleep _ => false
  | _ => true

def isClose : Event → Bool
  | .closeWorkbook => true
  | _ => false

def isOpen : Event → Bool
  | .openWorkbook _ => true
  | _ => false

def isLogoutClick : Event → Bool
  | .pageClick s => s == "text=Log out"
  | _ => false

/-- A submission attempt: `fill_and_submit_sales_form` always starts by
filling the `#firstname` field, and nothing else fills it. -/
def isAttempt : Event → Bool
  | .pageFill s _ => s == "#firstname"
  | _ => false

/-- The per-record failure log of the batch loop
(`"Error processing row ..."`). -/
def isFailureLog : Event → Bool
  | .log .error (.errorProcessingRow _ _) => true
  | _ => false

/-- The per-record success log (`"Form submitted for ..."`). -/
def isSuccessLog : Event → Bool
  | .log .info (.formSubmittedFor _ _) => true
  | _ => false

def isDownloadCall : Event → Bool
  | .httpDownload _ _ => true
  | _ => false

def sleepVal : Event → Option Nat
  | .sleep n => some n
  | _ => none

/-- The value filled into `#firstname`, marking one submission attempt
and recording which record it was for. -/
def attemptVal : Event → Option Val
  | .pageFill s v => if s == "#firstname" then some v else none
  | _ => none

/-- Whether the loop body for this row raises (so the row is logged as a
failure and skipped). -/
def rowFails (env : Env) (row : Row) : Bool :=
  match (processRowBody env row).1 with
  | .error _ => true
  | .ok _ => false

/-! ### Trace lemmas for the atomic operations -/

@[simp] theorem tr_tell (e : Event) : (tell e).2 = [e] := rfl

@[simp] theorem tr_logInfo (m : Msg) : (logInfo m).2 = [Event.log .info m] := rfl

@[simp] theorem tr_logError (m : Msg) : (logError m).2 = [Event.log .error m] := rfl

@[simp] theorem tr_extCall (e : Event) (r : Except Exc Unit) :
    (extCall e r).2 = [e] := by
  cases r <;> rfl

@[simp] theorem tr_liftE {α : Type} (r : Except Exc α) : (liftE r).2 = [] := rfl

@[simp] theorem tr_rowGet (row : Row) (k : String) : (rowGet row k).2 = [] := by
  unfold rowGet
  cases List.lookup k row <;> rfl

/-! ### Zero-count lemmas: a composite computation emits no event
satisfying `p` when none of its parts does. -/

theorem cz_bind {p : Event → Bool} {α β : Type} (x : M α) (f : α → M β)
    (hx : x.2.countP p = 0) (hf : ∀ a, (f a).2.countP p = 0) :
    ((x >>= f).2.countP p) = 0 := by
  rw [tr_bind, List.countP_append, hx]
  cases x.1 <;> simp [hf]

theorem cz_tryCatch {p : Event → Bool} {α : Type} (x : M α) (h : Exc → M α)
    (hx : x.2.countP p = 0) (hh : ∀ e, (h e).2.countP p = 0) :
    ((tryCatch x h).2.countP p) = 0 := by
  rw [tr_tryCatch, List.countP_append, hx]
  cases x.1 <;> simp [hh]

theorem cz_ite {p : Event → Bool} {α : Type} (c : Prop) [Decidable c]
    (x y : M α) (hx : x.2.countP p = 0) (hy : y.2.countP p = 0) :
    (((if c then x else y) : M α).2.countP p) = 0 := by
  split <;> assumption

theorem cz_single {p : Event → Bool} {e : Event} (h : p e = false) :
    List.countP p [e] = 0 := by
  simp [List.countP_cons, h]

theorem cz_tell {p : Event → Bool} {e : Event} (h : p e = false) :
    ((tell e).2.countP p) = 0 := by
  rw [tr_tell]; exact cz_single h

theorem cz_logInfo {p : Event → Bool} {m : Msg} (h : p (.log .info m) = false) :
    ((logInfo m).2.countP p) = 0 := cz_tell h

theorem cz_logError {p : Event → Bool} {m : Msg} (h : p (.log .error m) = false) :
    ((logError m).2.countP p) = 0 := cz_tell h

theorem cz_extCall {p : Event → Bool} {e : Event} (r : Except Exc Unit)
    (h : p e = false) : ((extCall e r).2.countP p) = 0 := by
  rw [tr_extCall]; exact cz_single h

theorem cz_liftE {p : Event → Bool} {α : Type} (r : Except Exc α) :
    ((liftE r).2.countP p) = 0 := rfl

theorem cz_rowGet {p : Event → Bool} (row : Row) (k : String) :
    ((rowGet row k).2.countP p) = 0 := by
  rw [tr_rowGet]; rfl

/-! ### Per-function event coverage: each source function emits no event
satisfying `p` as long as `p` rejects every event kind it can emit.
These lemmas serve any predicate (used below for "the finalizer marker is
never emitted before `end_process`" and "the workbook is never closed by
the download or the loop"). -/

theorem log_in_cz (env : Env) (p : Event → Bool)
    (hfill : ∀ s v, p (.pageFill s v) = false)
    (hclick : ∀ s, p (.pageClick s) = false)
    (h1 : p (.log .info .attemptingLogin) = false)
    (h2 : p (.log .info .loginSuccessful) = false)
    (h3 : p (.log .error .loginFailed) = false) :
    ((log_in env).2.countP p) = 0 := by
  unfold log_in
  refine cz_tryCatch _ _ ?_ fun e => ?_
  · refine cz_bind _ _ (cz_logInfo h1) fun _ => ?_
    refine cz_bind _ _ (cz_extCall _ (hfill _ _)) fun _ => ?_
    refine cz_bind _ _ (cz_extCall _ (hfill _ _)) fun _ => ?_
    refine cz_bind _ _ (cz_extCall _ (hclick _)) fun _ => ?_
    exact cz_logInfo h2
  · exact cz_bind _ _ (cz_logError h3) fun _ => rfl

theorem initialize_bot_cz (env : Env) (p : Event → Bool)
    (hfill : ∀ s v, p (.pageFill s v) = false)
    (hclick : ∀ s, p (.pageClick s) = false)
    (hconf : ∀ n, p (.browserConfigure n) = false)
    (hgoto : ∀ u, p (.browserGoto u) = false)
    (hmsg1 : p (.log .info .initializingBrowser) = false)
    (hmsg2 : p (.log .error .credsMissing) = false)
    (hmsg3 : p (.log .info .initComplete) = false)
    (hmsg4 : ∀ e, p (.log .error (.initFailed e)) = false)
    (hmsg5 : p (.log .info .attemptingLogin) = false)
    (hmsg6 : p (.log .info .loginSuccessful) = false)
    (hmsg7 : p (.log .error .loginFailed) = false) :
    ((initialize_bot env).2.countP p) = 0 := by
  unfold initialize_bot
  refine cz_tryCatch _ _ ?_ fun e => ?_
  · refine cz_bind _ _ (cz_logInfo hmsg1) fun _ => ?_
    refine cz_bind _ _ ?_ fun _ => ?_
    · unfold checkCreds
      refine cz_ite _ _ _ ?_ rfl
      exact cz_bind _ _ (cz_logError hmsg2) fun _ => rfl
    · refine cz_bind _ _ (cz_tell (hconf _)) fun _ => ?_
      refine cz_bind _ _ (cz_extCall _ (hgoto _)) fun _ => ?_
      refine cz_bind _ _ (log_in_cz env p hfill hclick hmsg5 hmsg6 hmsg7) fun _ => ?_
      exact cz_logInfo hmsg3
  · exact cz_bind _ _ (cz_logError (hmsg4 e)) fun _ => rfl

theorem download_attempt_cz (env : Env) (a : Nat) (p : Event → Bool)
    (hdl : ∀ u b, p (.httpDownload u b) = false)
    (hm1 : p (.log .info .downloadingExcel) = false)
    (hm2 : p (.log .info .downloadSuccess) = false)
    (hm3 : p (.log .error .downloadFailed) = false) :
    ((download_attempt env a).2.countP p) = 0 := by
  unfold download_attempt
  refine cz_tryCatch _ _ ?_ fun e => ?_
  · refine cz_bind _ _ (cz_logInfo hm1) fun _ => ?_
    refine cz_bind _ _ (cz_extCall _ (hdl _ _)) fun _ => ?_
    exact cz_logInfo hm2
  · exact cz_bind _ _ (cz_logError hm3) fun _ => rfl

theorem downloadRetry_cz (env : Env) (p : Event → Bool)
    (hdl : ∀ u b, p (.httpDownload u b) = false)
    (hsleep : ∀ n, p (.sleep n) = false)
    (hm1 : p (.log .info .downloadingExcel) = false)
    (hm2 : p (.log .info .downloadSuccess) = false)
    (hm3 : p (.log .error .downloadFailed) = false) :
    ∀ (r a : Nat), ((downloadRetry env a r).2.countP p) = 0 := by
  intro r
  induction r with
  | zero =>
    intro a
    unfold downloadRetry
    exact cz_tryCatch _ _ (download_attempt_cz env a p hdl hm1 hm2 hm3) fun e => rfl
  | succ n ih =>
    intro a
    unfold downloadRetry
    refine cz_tryCatch _ _ (download_attempt_cz env a p hdl hm1 hm2 hm3) fun e => ?_
    exact cz_bind _ _ (cz_tell (hsleep _)) fun _ => ih _

theorem fill_and_submit_cz (env : Env) (row : Row) (p : Event → Bool)
    (hfill : ∀ s v, p (.pageFill s v) = false)
    (hsel : ∀ s v, p (.pageSelectOption s v) = false)
    (hclick : ∀ s, p (.pageClick s) = false)
    (hm1 : ∀ fn ln, p (.log .info (.formSubmittedFor fn ln)) = false)
    (hm2 : ∀ r e, p (.log .error (.failedSubmit r e)) = false) :
    ((fill_and_submit_sales_form env row).2.countP p) = 0 := by
  unfold fill_and_submit_sales_form
  refine cz_tryCatch _ _ ?_ fun e => ?_
  · refine cz_bind _ _ (cz_rowGet _ _) fun v1 => ?_
    refine cz_bind _ _ (cz_extCall _ (hfill _ _)) fun _ => ?_
    refine cz_bind _ _ (cz_rowGet _ _) fun v2 => ?_
    refine cz_bind _ _ (cz_extCall _ (hfill _ _)) fun _ => ?_
    refine cz_bind _ _ (cz_rowGet _ _) fun v3 => ?_
    refine cz_bind _ _ (cz_extCall _ (hsel _ _)) fun _ => ?_
    refine cz_bind _ _ (cz_rowGet _ _) fun v4 => ?_
    refine cz_bind _ _ (cz_extCall _ (hfill _ _)) fun _ => ?_
    refine cz_bind _ _ (cz_extCall _ (hclick _)) fun _ => ?_
    refine cz_bind _ _ (cz_rowGet _ _) fun v5 => ?_
    refine cz_bind _ _ (cz_rowGet _ _) fun v6 => ?_
    exact cz_logInfo (hm1 _ _)
  · exact cz_bind _ _ (cz_logError (hm2 _ _)) fun _ => rfl

theorem processRowStep_cz (env : Env) (row : Row) (p : Event → Bool)
    (hfill : ∀ s v, p (.pageFill s v) = false)
    (hsel : ∀ s v, p (.pageSelectOption s v) = false)
    (hclick : ∀ s, p (.pageClick s) = false)
    (hm0 : ∀ fn ln, p (.log .info (.processingDataFor fn ln)) = false)
    (hm1 : ∀ fn ln, p (.log .info (.formSubmittedFor fn ln)) = false)
    (hm2 : ∀ r e, p (.log .error (.failedSubmit r e)) = false)
    (hm3 : ∀ r e, p (.log .error (.errorProcessingRow r e)) = false) :
    ((processRowStep env row).2.countP p) = 0 := by
  unfold processRowStep processRowBody
  refine cz_tryCatch _ _ ?_ fun e => cz_logError (hm3 _ _)
  refine cz_bind _ _ (cz_rowGet _ _) fun v1 => ?_
  refine cz_bind _ _ (cz_rowGet _ _) fun v2 => ?_
  refine cz_bind _ _ (cz_logInfo (hm0 _ _)) fun _ => ?_
  exact fill_and_submit_cz env row p hfill hsel hclick hm1 hm2

theorem processRows_cz (env : Env) (p : Event → Bool)
    (hfill : ∀ s v, p (.pageFill s v) = false)
    (hsel : ∀ s v, p (.pageSelectOption s v) = false)
    (hclick : ∀ s, p (.pageClick s) = false)
    (hm0 : ∀ fn ln, p (.log .info (.processingDataFor fn ln)) = false)
    (hm1 : ∀ fn ln, p (.log .info (.formSubmittedFor fn ln)) = false)
    (hm2 : ∀ r e, p (.log .error (.failedSubmit r e)) = false)
    (hm3 : ∀ r e, p (.log .error (.errorProcessingRow r e)) = false) :
    ∀ rows : List Row, ((processRows env rows).2.countP p) = 0 := by
  intro rows
  induction rows with
  | nil => rfl
  | cons row rest ih =>
    unfold processRows
    refine cz_bind _ _ ?_ fun _ => ih
    exact processRowStep_cz env row p hfill hsel hclick hm0 hm1 hm2 hm3

theorem process_sales_data_cz (env : Env) (p : Event → Bool)
    (hfill : ∀ s v, p (.pageFill s v) = false)
    (hsel : ∀ s v, p (.pageSelectOption s v) = false)
    (hclick : ∀ s, p (.pageClick s) = false)
    (hdl : ∀ u b, p (.httpDownload u b) = false)
    (hsleep : ∀ n, p (.sleep n) = false)
    (hopen : ∀ s, p (.openWorkbook s) = false)
    (hread : ∀ s, p (.readWorksheet s) = false)
    (hclose : p .closeWorkbook = false)
    (hd1 : p (.log .info .downloadingExcel) = false)
    (hd2 : p (.log .info .downloadSuccess) = false)
    (hd3 : p (.log .error .downloadFailed) = false)
    (hp1 : ∀ n, p (.log .info (.processingRows n)) = false)
    (hp2 : p (.log .info .allProcessed) = false)
    (hp3 : ∀ e, p (.log .error (.errorDuringProcessing e)) = false)
    (hm0 : ∀ fn ln, p (.log .info (.processingDataFor fn ln)) = false)
    (hm1 : ∀ fn ln, p (.log .info (.formSubmittedFor fn ln)) = false)
    (hm2 : ∀ r e, p (.log .error (.failedSubmit r e)) = false)
    (hm3 : ∀ r e, p (.log .error (.errorProcessingRow r e)) = false) :
    ((process_sales_data env).2.countP p) = 0 := by
  unfold process_sales_data download_excel_file
  refine cz_tryCatch _ _ ?_ fun e => ?_
  · refine cz_bind _ _ (downloadRetry_cz env p hdl hsleep hd1 hd2 hd3 2 0) fun _ => ?_
    refine cz_bind _ _ (cz_extCall _ (hopen _)) fun _ => ?_
    refine cz_bind _ _ (cz_tell (hread _)) fun _ => ?_
    refine cz_bind _ _ (cz_liftE _) fun rows => ?_
    refine cz_bind _ _ (cz_tell hclose) fun _ => ?_
    refine cz_bind _ _ (cz_logInfo (hp1 _)) fun _ => ?_
    refine cz_bind _ _
      (processRows_cz env p hfill hsel hclick hm0 hm1 hm2 hm3 rows) fun _ => ?_
    exact cz_logInfo hp2
  · exact cz_bind _ _ (cz_logError (hp3 _)) fun _ => rfl

/-! ### Result lemmas -/

/-- A `tryCatch` whose handler always completes normally completes
normally. -/
theorem tryCatch_res_ok (x : M Unit) (h : Exc → M Unit)
    (hh : ∀ e, (h e).1 = Except.ok ()) : (tryCatch x h).1 = Except.ok () := by
  rw [res_tryCatch]
  cases hx : x.1 with
  | error e => exact hh e
  | ok a => rfl

/-- Function `end_process` swallows every exception: it always completes
normally. -/
theorem end_process_res (env : Env) : (end_process env).1 = Except.ok () := by
  unfold end_process
  exact tryCatch_res_ok _ _ fun e => rfl

/-- The guarded main phase always completes normally (its handler only
logs). -/
theorem robotMain_res (env : Env) : (robotMain env).1 = Except.ok () := by
  unfold robotMain
  exact tryCatch_res_ok _ _ fun e => rfl

/-- The top-level trace is the main-phase trace followed by the
`end_process` trace. -/
theorem robot_tr (env : Env) :
    (robot_spare_bin_python env).2 = (robotMain env).2 ++ (end_process env).2 := by
  unfold robot_spare_bin_python
  rw [tr_bind, robotMain_res]

/-- The main phase (everything before the finalizer) never emits the
finalizer marker. -/
theorem robotMain_no_shot (env : Env) :
    ((robotMain env).2.countP isShotLog) = 0 := by
  unfold robotMain
  refine cz_tryCatch _ _ ?_ fun e => cz_logError rfl
  refine cz_bind _ _ (cz_logInfo rfl) fun _ => ?_
  refine cz_bind _ _ ?_ fun _ => ?_
  · exact initialize_bot_cz env isShotLog (fun s v => rfl) (fun s => rfl)
      (fun n => rfl) (fun u => rfl) rfl rfl rfl (fun e => rfl) rfl rfl rfl
  refine cz_bind _ _ ?_ fun _ => cz_logInfo rfl
  exact process_sales_data_cz env isShotLog (fun s v => rfl) (fun s v => rfl)
    (fun s => rfl) (fun u b => rfl) (fun n => rfl) (fun s => rfl) (fun s => rfl)
    rfl rfl rfl rfl (fun n => rfl) rfl (fun e => rfl) (fun fn ln => rfl)
    (fun fn ln => rfl) (fun r e => rfl) (fun r e => rfl)

/-- Function `end_process` emits the finalizer marker exactly once, whatever the
collaborators do. -/
theorem end_process_one_shot (env : Env) :
    ((end_process env).2.countP isShotLog) = 1 := by
  unfold end_process
  rcases h1 : env.screenshotResult with e1 | u1
  · simp [extCall, logInfo, logError, tell, h1, isShotLog, List.countP_cons]
  rcases h2 : env.readRegionResult with e2 | html
  · simp [extCall, liftE, logInfo, logError, tell, h1, h2, isShotLog, List.countP_cons]
  rcases h3 : env.htmlToPdfResult html with e3 | u3
  · simp [extCall, liftE, logInfo, logError, tell, h1, h2, h3, isShotLog, List.countP_cons]
  rcases h4 : env.clickResult "text=Log out" with e4 | u4
  · simp [extCall, liftE, logInfo, logError, tell, h1, h2, h3, h4, isShotLog, List.countP_cons]
  · simp [extCall, liftE, logInfo, logError, tell, h1, h2, h3, h4, isShotLog, List.countP_cons]

/-! ### Witness environments -/

/-- A fully cooperative environment with no credentials set. -/
def defaultEnv : Env where
  username := none
  password := none
  gotoResult := fun _ => .ok ()
  fillResult := fun _ _ => .ok ()
  selectResult := fun _ _ => .ok ()
  clickResult := fun _ => .ok ()
  downloadResult := fun _ => .ok ()
  openWorkbookResult := .ok ()
  readWorksheetResult := .ok []
  screenshotResult := .ok ()
  readRegionResult := .ok "<div>results</div>"
  htmlToPdfResult := fun _ => .ok ()

/-- Credentials present, but the initial navigation fails, so
`initialize_bot` fails. -/
def envInitFail : Env :=
  { defaultEnv with
      username := some "user"
      password := some "pass"
      gotoResult := fun _ => .error (.external "net::CONNECTION_REFUSED") }

/-! ### Claim theorems -/

/-- Claim C1, counterexample. The claim says the finalizer (`end_process`)
is *not* executed when `initialize` itself failed, and that the Artifact
Exporter never runs before the batch phase has been attempted.  In the run
below `initialize_bot` fails (navigation error), yet the finalizer marker
appears in the trace — and it appears without a single submission attempt
or download call, i.e. the exporter ran although the batch phase was never
attempted. -/
theorem finalizer_runs_despite_init_failure :
    (initialize_bot envInitFail).1 =
      Except.error (Exc.processError "Initialization failed.") ∧
    ((robot_spare_bin_python envInitFail).2.countP isShotLog) = 1 ∧
    ((robot_spare_bin_python envInitFail).2.countP isAttempt) = 0 ∧
    ((robot_spare_bin_python envInitFail).2.countP isDownloadCall) = 0 :=
  ⟨rfl, rfl, rfl, rfl⟩

/-- Claim C1, amended. In every run the finalizer phase (`end_process`) is
executed exactly once — including runs in which `initialize` failed: the
`finally` clause is unconditional.  (Consequently the Artifact Exporter
can run even when the batch phase was never attempted.) -/
theorem finalizer_exactly_once (env : Env) :
    ((robot_spare_bin_python env).2.countP isShotLog) = 1 := by
  rw [robot_tr, List.countP_append, robotMain_no_shot, end_process_one_shot]

/-- Claim C7. A failure inside the Artifact Exporter / finalizer is logged
but never propagates: `end_process` always completes normally, whatever
the collaborators do, and the top-level trace is the untouched main-phase
trace (with the recorded outcome of the batch
processor) followed by the
events of the finalizer. -/
theorem export_failure_never_propagates (env : Env) :
    (end_process env).1 = Except.ok () ∧
    (robot_spare_bin_python env).2 = (robotMain env).2 ++ (end_process env).2 :=
  ⟨end_process_res env, robot_tr env⟩

/-- Claim C8. When a credential is absent or empty, `initialize_bot` fails
with a `ProcessError` after emitting only log records: the exact result
and trace are computed, and the trace contains no external (network, UI,
or file) call. -/
theorem initialize_missing_creds (env : Env) (h : credsMissing env = true) :
    initialize_bot env =
      (Except.error (Exc.processError "Initialization failed."),
        [Event.log .info .initializingBrowser,
         Event.log .error .credsMissing,
         Event.log .error (.initFailed (Exc.processError
           "Environment variables USERNAME and PASSWORD are required."))]) ∧
    ((initialize_bot env).2.countP isExternalCall) = 0 := by
  have h1 : initialize_bot env =
      (Except.error (Exc.processError "Initialization failed."),
        [Event.log .info .initializingBrowser,
         Event.log .error .credsMissing,
         Event.log .error (.initFailed (Exc.processError
           "Environment variables USERNAME and PASSWORD are required."))]) := by
    unfold initialize_bot checkCreds
    rw [h]
    simp [logInfo, logError, tell]
  refine ⟨h1, ?_⟩
  rw [h1]
  rfl

/-- Claim C8, witness. `defaultEnv` has no credentials; the theorem applies
to it. -/
theorem initialize_missing_creds_witness :
    initialize_bot defaultEnv =
      (Except.error (Exc.processError "Initialization failed."),
        [Event.log .info .initializingBrowser,
         Event.log .error .credsMissing,
         Event.log .error (.initFailed (Exc.processError
           "Environment variables USERNAME and PASSWORD are required."))]) ∧
    ((initialize_bot defaultEnv).2.countP isExternalCall) = 0 :=
  initialize_missing_creds defaultEnv rfl

/-- Claim C9. The top-level task never propagates an exception: whatever
the collaborators do (any outcome of every browser, network, workbook or
PDF call), `robot_spare_bin_python` completes normally. -/
theorem robot_never_raises (env : Env) :
    (robot_spare_bin_python env).1 = Except.ok () := by
  unfold robot_spare_bin_python
  rw [res_bind, robotMain_res]
  exact end_process_res env

/-! ### Helpers for computations known to succeed -/

theorem res_bind_ok {α β : Type} (x : M α) (f : α → M β) (a : α)
    (hx : x.1 = Except.ok a) : (x >>= f).1 = (f a).1 := by
  rw [res_bind, hx]

theorem tr_bind_ok {α β : Type} (x : M α) (f : α → M β) (a : α)
    (hx : x.1 = Except.ok a) : (x >>= f).2 = x.2 ++ (f a).2 := by
  rw [tr_bind, hx]

/-- Every loop iteration completes normally: its handler only logs. -/
theorem processRowStep_res (env : Env) (row : Row) :
    (processRowStep env row).1 = Except.ok () := by
  unfold processRowStep
  exact tryCatch_res_ok _ _ fun e => rfl

/-- The whole loop completes normally: per-record failures are swallowed. -/
theorem processRows_res (env : Env) :
    ∀ rows : List Row, (processRows env rows).1 = Except.ok () := by
  intro rows
  induction rows with
  | nil => rfl
  | cons r rest ih =>
    unfold processRows
    rw [res_bind_ok _ _ () (processRowStep_res env r)]
    exact ih

/-! ### Finalizer internals: when is the logout click reached? -/

/-- The logout click of `end_process` is reached exactly when the
screenshot, the region read and the PDF render all succeed. -/
def logoutReached (env : Env) : Bool :=
  match env.screenshotResult, env.readRegionResult with
  | .ok _, .ok html =>
    match env.htmlToPdfResult html with
    | .ok _ => true
    | .error _ => false
  | _, _ => false

/-- An environment in which the screenshot step of the finalizer fails. -/
def envShotFail : Env :=
  { defaultEnv with
      username := some "user"
      password := some "pass"
      screenshotResult := .error (.external "screenshot failed") }

/-- Claim C6, counterexample. The claim says logout is attempted in every
run that reaches the finalizer, even if the screenshot fails.  In this run
the finalizer is reached (its marker appears) and the screenshot fails,
but no logout click ever occurs. -/
theorem logout_skipped_when_screenshot_fails :
    ((robot_spare_bin_python envShotFail).2.countP isShotLog) = 1 ∧
    ((robot_spare_bin_python envShotFail).2.countP isLogoutClick) = 0 ∧
    (robot_spare_bin_python envShotFail).1 = Except.ok () :=
  ⟨rfl, rfl, rfl⟩

/-- Claim C6, amended. Inside the finalizer the logout click is attempted
exactly when the screenshot, the region read and the PDF render all
succeed; a failure of any of those sub-steps skips the logout (the
handler only logs). -/
theorem logout_click_characterization (env : Env) :
    ((end_process env).2.countP isLogoutClick) =
      if logoutReached env then 1 else 0 := by
  unfold end_process logoutReached
  rcases h1 : env.screenshotResult with e1 | u1
  · simp [extCall, logInfo, logError, tell, h1, isLogoutClick, List.countP_cons]
  rcases h2 : env.readRegionResult with e2 | html
  · simp [extCall, liftE, logInfo, logError, tell, h1, h2, isLogoutClick, List.countP_cons]
  rcases h3 : env.htmlToPdfResult html with e3 | u3
  · simp [extCall, liftE, logInfo, logError, tell, h1, h2, h3, isLogoutClick, List.countP_cons]
  rcases h4 : env.clickResult "text=Log out" with e4 | u4
  · simp [extCall, liftE, logInfo, logError, tell, h1, h2, h3, h4, isLogoutClick, List.countP_cons]
  · simp [extCall, liftE, logInfo, logError, tell, h1, h2, h3, h4, isLogoutClick, List.countP_cons]

/-! ### Record Source: is the workbook handle released? -/

/-- The `close_workbook` call of `process_sales_data` is reached exactly
when the download, the workbook open and the worksheet read all
succeed. -/
def closeReached (env : Env) : Bool :=
  match (download_excel_file env).1 with
  | .error _ => false
  | .ok _ =>
    match env.openWorkbookResult with
    | .error _ => false
    | .ok _ =>
      match env.readWorksheetResult with
      | .error _ => false
      | .ok _ => true

/-- An environment in which reading the worksheet raises after the
workbook was opened. -/
def envReadFail : Env :=
  { defaultEnv with
      username := some "user"
      password := some "pass"
      readWorksheetResult := .error (.external "worksheet data not found") }

/-- Claim C5, counterexample. The claim says the workbook handle is closed
before the load returns on every failure path.  In this run the workbook
is opened, the worksheet read raises, and no close ever happens: the
error propagates (wrapped as `ProcessError`) with the handle still
open. -/
theorem workbook_left_open_on_read_failure :
    ((process_sales_data envReadFail).2.countP isOpen) = 1 ∧
    ((process_sales_data envReadFail).2.countP isClose) = 0 ∧
    (process_sales_data envReadFail).1 =
      Except.error (Exc.processError "Failed to process sales data.") :=
  ⟨rfl, rfl, rfl⟩

/-- Claim C5, amended. The workbook handle is closed on the success path
only: `close_workbook` runs exactly when the download, the open and the
read all succeed; if the worksheet read raises, the close is skipped
(there is no `finally` around it). -/
theorem workbook_close_characterization (env : Env) :
    ((process_sales_data env).2.countP isClose) =
      if closeReached env then 1 else 0 := by
  have hdl0 : ((download_excel_file env).2.countP isClose) = 0 := by
    unfold download_excel_file
    exact downloadRetry_cz env isClose (fun u b => rfl) (fun n => rfl)
      rfl rfl rfl 2 0
  have hrows0 : ∀ rows, ((processRows env rows).2.countP isClose) = 0 :=
    processRows_cz env isClose (fun s v => rfl) (fun s v => rfl) (fun s => rfl)
      (fun fn ln => rfl) (fun fn ln => rfl) (fun r e => rfl) (fun r e => rfl)
  unfold process_sales_data closeReached
  rw [tr_tryCatch, List.countP_append, tr_bind, res_bind]
  rcases hd : (download_excel_file env).1 with e | u
  · simp [extCall, liftE, logInfo, logError, tell, hd, hdl0, isClose,
      List.countP_cons]
  rcases ho : env.openWorkbookResult with e | u2
  · simp [extCall, liftE, logInfo, logError, tell, hd, ho, hdl0, isClose,
      List.countP_cons]
  rcases hr : env.readWorksheetResult with e | rows
  · simp [extCall, liftE, logInfo, logError, tell, hd, ho, hr, hdl0, isClose,
      List.countP_cons]
  · simp [extCall, liftE, logInfo, logError, tell, hd, ho, hr, hdl0, hrows0,
      processRows_res, isClose, List.countP_cons, res_bind, tr_bind,
      List.countP_append]

/-! ### Resilient Fetcher: retry budget and the final error -/

/-- Python substring test `needle in hay` on character lists. -/
def containsAux (needle : List Char) : List Char → Bool
  | [] => needle.isEmpty
  | c :: rest => needle.isPrefixOf (c :: rest) || containsAux needle rest

/-- Python substring test `needle in hay` on strings. -/
def strContains (hay needle : String) : Bool :=
  containsAux needle.data hay.data

theorem downloadRetry_zero (env : Env) (a : Nat) :
    downloadRetry env a 0 =
      tryCatch (download_attempt env a)
        (fun e : Exc => throw (Exc.retryError e)) := rfl

theorem downloadRetry_succ (env : Env) (a n : Nat) :
    downloadRetry env a (n + 1) =
      tryCatch (download_attempt env a)
        (fun _ : Exc => do
          tell (.sleep 2)
          downloadRetry env (a + 1) n) := rfl

/-- An environment in which every download attempt fails. -/
def envAllFail : Env :=
  { defaultEnv with
      username := some "user"
      password := some "pass"
      downloadResult := fun _ => .error (.external "HTTPError: 500 Server Error") }

/-- The exception `download_excel_file` raises after its retry budget is
exhausted: the tenacity `RetryError` wrapping the script error
`ProcessError("Failed to download Excel file.")`. -/
def exhaustedErr : Exc :=
  Exc.retryError (Exc.processError "Failed to download Excel file.")

/-- Claim C3, counterexample. The claim says exhausting the retries raises
a fetch error whose message names the URL and the attempt count.  With
every attempt failing, the raised exception is the tenacity `RetryError`
wrapping `ProcessError("Failed to download Excel file.")` — a message
that contains neither the URL nor the digit 3. -/
theorem download_exhaustion_message :
    (download_excel_file envAllFail).1 = Except.error exhaustedErr ∧
    strContains (excMsg exhaustedErr) dataUrl = false ∧
    strContains (excMsg exhaustedErr) "3" = false :=
  ⟨rfl, rfl, rfl⟩

/-- Claim C3, amended. The fetch retries up to a fixed maximum of 3
attempts with a fixed 2-unit delay between attempts (no backoff growth);
when all 3 attempts fail it raises the tenacity `RetryError` wrapping
`ProcessError("Failed to download Excel file.")` — an error that names
neither the URL nor the attempt count. -/
theorem download_retry_exhaustion (env : Env) (e0 e1 e2 : Exc)
    (h0 : env.downloadResult 0 = .error e0)
    (h1 : env.downloadResult 1 = .error e1)
    (h2 : env.downloadResult 2 = .error e2) :
    (download_excel_file env).1 = Except.error exhaustedErr ∧
    ((download_excel_file env).2.countP isDownloadCall) = 3 ∧
    (download_excel_file env).2.filterMap sleepVal = [2, 2] := by
  have hE : download_excel_file env =
      (Except.error exhaustedErr,
        [.log .info .downloadingExcel, .httpDownload dataUrl true,
         .log .error .downloadFailed, .sleep 2,
         .log .info .downloadingExcel, .httpDownload dataUrl true,
         .log .error .downloadFailed, .sleep 2,
         .log .info .downloadingExcel, .httpDownload dataUrl true,
         .log .error .downloadFailed]) := by
    unfold download_excel_file
    simp [downloadRetry_succ, downloadRetry_zero, download_attempt, extCall,
      logInfo, logError, tell, h0, h1, h2, exhaustedErr]
  rw [hE]
  exact ⟨rfl, rfl, rfl⟩

/-- Claim C3, amended, witness. The amended theorem applied to the
all-attempts-fail environment. -/
theorem download_retry_exhaustion_witness :
    (download_excel_file envAllFail).1 = Except.error exhaustedErr ∧
    ((download_excel_file envAllFail).2.countP isDownloadCall) = 3 ∧
    (download_excel_file envAllFail).2.filterMap sleepVal = [2, 2] :=
  download_retry_exhaustion envAllFail _ _ _ rfl rfl rfl

/-! ### Batch Processor: per-record isolation -/

/-- A worksheet row carrying the four fields the form consumes. -/
def hasFields (row : Row) : Bool :=
  (List.lookup "First Name" row).isSome &&
    (List.lookup "Last Name" row).isSome &&
    (List.lookup "Sales Target" row).isSome &&
    (List.lookup "Sales" row).isSome

/-- The value a row carries for `First Name` (used to state order
preservation of the processing loop). -/
def rowFirstName (row : Row) : Val :=
  (List.lookup "First Name" row).getD Val.vNone

/-- One loop iteration over a row with all four fields: exactly one
submission attempt happens; one failure log appears iff the body raises,
one success log iff it does not; the attempted first-name value is the one the
row carries. -/
theorem processRowStep_counts (env : Env) (row : Row)
    (h : hasFields row = true) :
    ((processRowStep env row).2.countP isAttempt) = 1 ∧
    ((processRowStep env row).2.countP isFailureLog) =
      (if rowFails env row then 1 else 0) ∧
    ((processRowStep env row).2.countP isSuccessLog) =
      (if rowFails env row then 0 else 1) ∧
    (processRowStep env row).2.filterMap attemptVal = [rowFirstName row] := by
  simp only [hasFields, Bool.and_eq_true, Option.isSome_iff_exists] at h
  obtain ⟨⟨⟨⟨fn, hfn⟩, ln, hln⟩, st, hst⟩, sa, hsa⟩ := h
  unfold processRowStep processRowBody fill_and_submit_sales_form rowFails
    processRowBody rowFirstName
  rcases hf1 : env.fillResult "#firstname" fn with e1 | u1
  · simp [fill_and_submit_sales_form, rowGet, hfn, hln, hst, hsa, extCall,
      logInfo, logError, tell, hf1,
      isAttempt, isFailureLog, isSuccessLog, attemptVal, List.countP_cons]
  rcases hf2 : env.fillResult "#lastname" ln with e2 | u2
  · simp [fill_and_submit_sales_form, rowGet, hfn, hln, hst, hsa, extCall,
      logInfo, logError, tell, hf1,
      hf2, isAttempt, isFailureLog, isSuccessLog, attemptVal, List.countP_cons]
  rcases hf3 : env.selectResult "#salestarget" (strV st) with e3 | u3
  · simp [fill_and_submit_sales_form, rowGet, hfn, hln, hst, hsa, extCall,
      logInfo, logError, tell, hf1,
      hf2, hf3, isAttempt, isFailureLog, isSuccessLog, attemptVal,
      List.countP_cons]
  rcases hf4 : env.fillResult "#salesresult" (Val.vStr (strV sa)) with e4 | u4
  · simp [fill_and_submit_sales_form, rowGet, hfn, hln, hst, hsa, extCall,
      logInfo, logError, tell, hf1,
      hf2, hf3, hf4, isAttempt, isFailureLog, isSuccessLog, attemptVal,
      List.countP_cons]
  rcases hf5 : env.clickResult "text=Submit" with e5 | u5
  · simp [fill_and_submit_sales_form, rowGet, hfn, hln, hst, hsa, extCall,
      logInfo, logError, tell, hf1,
      hf2, hf3, hf4, hf5, isAttempt, isFailureLog, isSuccessLog, attemptVal,
      List.countP_cons]
  · simp [fill_and_submit_sales_form, rowGet, hfn, hln, hst, hsa, extCall,
      logInfo, logError, tell, hf1,
      hf2, hf3, hf4, hf5, isAttempt, isFailureLog, isSuccessLog, attemptVal,
      List.countP_cons]

/-- Splitting a list by a predicate: the rejected part has the
complementary length. -/
theorem filter_not_length {α : Type} (p : α → Bool) (l : List α) :
    (l.filter fun a => !p a).length = l.length - (l.filter p).length := by
  induction l with
  | nil => rfl
  | cons a rest ih =>
    rcases hp : p a
    · simp [List.filter_cons, hp, ih, Nat.succ_sub (List.length_filter_le p rest)]
    · simp [List.filter_cons, hp, ih, Nat.succ_sub_succ]

/-- The loop over a batch whose rows all carry the four fields: it never
aborts, attempts exactly one submission per row, logs one failure per
failing row and one success per non-failing row, in source order. -/
theorem processRows_counts (env : Env) (rows : List Row)
    (h : ∀ r ∈ rows, hasFields r = true) :
    (processRows env rows).1 = Except.ok () ∧
    ((processRows env rows).2.countP isAttempt) = rows.length ∧
    ((processRows env rows).2.countP isFailureLog) =
      (rows.filter fun r => rowFails env r).length ∧
    ((processRows env rows).2.countP isSuccessLog) =
      (rows.filter fun r => !rowFails env r).length ∧
    (processRows env rows).2.filterMap attemptVal = rows.map rowFirstName := by
  induction rows with
  | nil => exact ⟨rfl, rfl, rfl, rfl, rfl⟩
  | cons r rest ih =>
    obtain ⟨ha, hf, hs, hv⟩ :=
      processRowStep_counts env r (h r (List.mem_cons_self r rest))
    obtain ⟨ih1, ih2, ih3, ih4, ih5⟩ :=
      ih fun x hx => h x (List.mem_cons_of_mem r hx)
    have htr : (processRows env (r :: rest)).2 =
        (processRowStep env r).2 ++ (processRows env rest).2 :=
      tr_bind_ok _ _ () (processRowStep_res env r)
    have hres : (processRows env (r :: rest)).1 = Except.ok () :=
      processRows_res env (r :: rest)
    refine ⟨hres, ?_, ?_, ?_, ?_⟩
    · rw [htr, List.countP_append, ha, ih2, List.length_cons]
      exact Nat.add_comm 1 rest.length
    · rw [htr, List.countP_append, hf, ih3, List.filter_cons]
      rcases hrf : rowFails env r <;> simp [hrf, Nat.add_comm]
    · rw [htr, List.countP_append, hs, ih4, List.filter_cons]
      rcases hrf : rowFails env r <;> simp [hrf, Nat.add_comm]
    · rw [htr, List.filterMap_append, hv, ih5, List.map_cons]
      rfl

/-- Claim C2. For every batch of rows carrying the four form fields, the
Batch Processor attempts one submission per row in source order, logs
exactly one failure per row whose processing raises and one success per
row whose processing does not, and the loop completes without aborting —
with `K` failing rows out of `N`, exactly `K` failures and `N − K`
successes are logged. -/
theorem batch_processor_isolation (env : Env) (rows : List Row)
    (h : ∀ r ∈ rows, hasFields r = true) :
    (processRows env rows).1 = Except.ok () ∧
    ((processRows env rows).2.countP isAttempt) = rows.length ∧
    ((processRows env rows).2.countP isFailureLog) =
      (rows.filter fun r => rowFails env r).length ∧
    ((processRows env rows).2.countP isSuccessLog) =
      rows.length - (rows.filter fun r => rowFails env r).length ∧
    (processRows env rows).2.filterMap attemptVal = rows.map rowFirstName := by
  obtain ⟨h1, h2, h3, h4, h5⟩ := processRows_counts env rows h
  refine ⟨h1, h2, h3, ?_, h5⟩
  rw [h4, filter_not_length]

/-- A three-row batch whose middle row fails: its sales target is the
one option the collaborator rejects. -/
def rowsW : List Row :=
  [[("First Name", .vStr "Ada"), ("Last Name", .vStr "Lovelace"),
    ("Sales Target", .vNum 5000), ("Sales", .vNum 6000)],
   [("First Name", .vStr "Bob"), ("Last Name", .vStr "Marley"),
    ("Sales Target", .vNum 123), ("Sales", .vNum 10)],
   [("First Name", .vStr "Cleo"), ("Last Name", .vStr "Patra"),
    ("Sales Target", .vNum 5000), ("Sales", .vNum 4000)]]

/-- An environment whose select control rejects the option `"123"`. -/
def envMidFail : Env :=
  { defaultEnv with
      username := some "user"
      password := some "pass"
      selectResult := fun _ v =>
        if v == "123" then .error (.external "no option 123") else .ok () }

/-- Claim C2, witness. The three-row batch with a failing middle row:
3 attempts, 1 failure, 2 successes, order preserved. -/
theorem batch_processor_isolation_witness :
    (processRows envMidFail rowsW).1 = Except.ok () ∧
    ((processRows envMidFail rowsW).2.countP isAttempt) = rowsW.length ∧
    ((processRows envMidFail rowsW).2.countP isFailureLog) =
      (rowsW.filter fun r => rowFails envMidFail r).length ∧
    ((processRows envMidFail rowsW).2.countP isSuccessLog) =
      rowsW.length - (rowsW.filter fun r => rowFails envMidFail r).length ∧
    (processRows envMidFail rowsW).2.filterMap attemptVal =
      rowsW.map rowFirstName :=
  batch_processor_isolation envMidFail rowsW (by decide)

/-! ### Record Source: what actually happens on a missing header -/

/-- A row without the expected `First Name` header makes the loop
iteration fail at the field access `row["First Name"]` in the f-string: the
`KeyError` is caught by the per-record handler and logged; no submission
is attempted for it. -/
theorem processRowStep_missing (env : Env) (row : Row)
    (hr : List.lookup "First Name" row = none) :
    processRowStep env row =
      (Except.ok (),
        [Event.log .error (.errorProcessingRow row (.keyError "First Name"))]) := by
  unfold processRowStep processRowBody
  simp [rowGet, hr, logError, tell]

/-- A batch of rows all lacking `First Name` produces one per-record
failure log per row and nothing else. -/
theorem processRows_missing (env : Env) (rows : List Row)
    (h : ∀ r ∈ rows, List.lookup "First Name" r = none) :
    processRows env rows =
      (Except.ok (),
        rows.map fun r =>
          Event.log .error (.errorProcessingRow r (.keyError "First Name"))) := by
  induction rows with
  | nil => rfl
  | cons r rest ih =>
    have hstep := processRowStep_missing env r (h r (List.mem_cons_self r rest))
    have hrest := ih fun x hx => h x (List.mem_cons_of_mem r hx)
    calc processRows env (r :: rest)
        = processRowStep env r >>= (fun _ => processRows env rest) := rfl
      _ = _ := by rw [hstep, hrest]; simp

/-- An environment whose worksheet has a header without the expected
field names. -/
def envBadHeader : Env :=
  { defaultEnv with
      username := some "user"
      password := some "pass"
      readWorksheetResult := .ok [[("Name", .vStr "Jane Doe")]] }

/-- Claim C4, counterexample. The claim says absent header fields make the
load fail with a fatal `SourceFormatError` that aborts the batch before
any record is attempted.  With a mis-headed worksheet, the load succeeds,
the single record *is* attempted and fails per-record (caught and
logged), and no error propagates: the phase completes normally. -/
theorem missing_header_not_fatal :
    (process_sales_data envBadHeader).1 = Except.ok () ∧
    ((process_sales_data envBadHeader).2.countP isFailureLog) = 1 ∧
    ((process_sales_data envBadHeader).2.countP isAttempt) = 0 :=
  ⟨rfl, rfl, rfl⟩

/-- Claim C4, amended. Absent header fields are not detected at load time:
the load succeeds, every record then fails individually at its
`row["First Name"]` access with a `KeyError` that is caught and logged by
the per-record handler, no submission is ever attempted, and the
processing phase completes normally (no error propagates). -/
theorem missing_header_per_record (env : Env) (rows : List Row)
    (hdl : env.downloadResult 0 = .ok ())
    (hopen : env.openWorkbookResult = .ok ())
    (hread : env.readWorksheetResult = .ok rows)
    (h : ∀ r ∈ rows, List.lookup "First Name" r = none) :
    (process_sales_data env).1 = Except.ok () ∧
    ((process_sales_data env).2.countP isFailureLog) = rows.length ∧
    ((process_sales_data env).2.countP isAttempt) = 0 := by
  have hD : download_excel_file env =
      (Except.ok (),
        [.log .info .downloadingExcel, .httpDownload dataUrl true,
         .log .info .downloadSuccess]) := by
    unfold download_excel_file
    simp [downloadRetry_succ, download_attempt, extCall, logInfo, tell, hdl]
  have hR := processRows_missing env rows h
  refine ⟨?_, ?_, ?_⟩ <;>
    simp [process_sales_data, hD, hR, extCall, hopen, tell, liftE, hread,
      logInfo, logError, isFailureLog, isAttempt, List.countP_cons,
      List.countP_append, List.countP_map, Function.comp]

/-- Claim C4, amended, witness. The amended theorem applied to the
mis-headed worksheet environment. -/
theorem missing_header_per_record_witness :
    (process_sales_data envBadHeader).1 = Except.ok () ∧
    ((process_sales_data envBadHeader).2.countP isFailureLog) =
      [[(("Name" : String), Val.vStr "Jane Doe")]].length ∧
    ((process_sales_data envBadHeader).2.countP isAttempt) = 0 :=
  missing_header_per_record envBadHeader [[("Name", .vStr "Jane Doe")]]
    rfl rfl rfl (by decide)

/-! ### Form filling: `str()` coercion of the numeric fields -/

/-- A model of Playwright `page.fill`, which accepts only `str` values and raises
a `TypeError` otherwise (the script relies on this: it coerces the Sales
Target and Sales cells with `str(...)` but passes the name cells raw). -/
def pwFill (sel : String) (v : Val) : Except Exc Unit :=
  match v with
  | .vStr _ => .ok ()
  | _ => .error (.external "fill: value must be a string")

/-- A row whose name cells are strings and whose numeric cells are
numbers, as the worksheet delivers them. -/
def goodRow (fn ln : String) (t sa : Int) : Row :=
  [("First Name", .vStr fn), ("Last Name", .vStr ln),
   ("Sales Target", .vNum t), ("Sales", .vNum sa)]

/-- A row whose `First Name` cell is numeric. -/
def numNameRow (k : Int) (ln : String) (t sa : Int) : Row :=
  [("First Name", .vNum k), ("Last Name", .vStr ln),
   ("Sales Target", .vNum t), ("Sales", .vNum sa)]

/-- Claim C10. Against a fill step that accepts only strings: a record with
numeric Sales Target and Sales cells is submitted normally (both are
passed through `str(...)`), while a record whose First Name cell is
numeric raises at the raw `page.fill` and is skipped as a per-record
failure — the rest of the batch still processes. -/
theorem str_coercion_of_numeric_fields (env : Env)
    (hfill : ∀ s v, env.fillResult s v = pwFill s v)
    (hsel : ∀ s v, env.selectResult s v = Except.ok ())
    (hclick : ∀ s, env.clickResult s = Except.ok ())
    (fn ln : String) (t sa k : Int) :
    (fill_and_submit_sales_form env (goodRow fn ln t sa)).1 = Except.ok () ∧
    rowFails env (goodRow fn ln t sa) = false ∧
    rowFails env (numNameRow k ln t sa) = true ∧
    (processRows env [numNameRow k ln t sa, goodRow fn ln t sa]).1 =
      Except.ok () ∧
    ((processRows env
        [numNameRow k ln t sa, goodRow fn ln t sa]).2.countP isFailureLog) = 1 ∧
    ((processRows env
        [numNameRow k ln t sa, goodRow fn ln t sa]).2.countP isSuccessLog) = 1 := by
  have g1 : rowGet (goodRow fn ln t sa) "First Name" =
      (Except.ok (Val.vStr fn), []) := rfl
  have g2 : rowGet (goodRow fn ln t sa) "Last Name" =
      (Except.ok (Val.vStr ln), []) := rfl
  have g3 : rowGet (goodRow fn ln t sa) "Sales Target" =
      (Except.ok (Val.vNum t), []) := rfl
  have g4 : rowGet (goodRow fn ln t sa) "Sales" =
      (Except.ok (Val.vNum sa), []) := rfl
  have b1 : rowGet (numNameRow k ln t sa) "First Name" =
      (Except.ok (Val.vNum k), []) := rfl
  have b2 : rowGet (numNameRow k ln t sa) "Last Name" =
      (Except.ok (Val.vStr ln), []) := rfl
  have hgood : (fill_and_submit_sales_form env (goodRow fn ln t sa)).1 =
      Except.ok () := by
    simp [fill_and_submit_sales_form, g1, g2, g3, g4, hfill, pwFill, hsel,
      hclick, extCall, logInfo, logError, tell, strV]
  have hgf : rowFails env (goodRow fn ln t sa) = false := by
    simp [rowFails, processRowBody, fill_and_submit_sales_form, g1, g2, g3, g4,
      hfill, pwFill, hsel, hclick, extCall, logInfo, logError, tell, strV]
  have hbf : rowFails env (numNameRow k ln t sa) = true := by
    simp [rowFails, processRowBody, fill_and_submit_sales_form, b1, b2,
      hfill, pwFill, extCall, logInfo, logError, tell]
  obtain ⟨hres, -, hfail, hsucc, -⟩ :=
    processRows_counts env [numNameRow k ln t sa, goodRow fn ln t sa]
      (by
        intro r hr
        rcases List.mem_cons.mp hr with h | h
        · subst h; rfl
        · rcases List.mem_cons.mp h with h2 | h2
          · subst h2; rfl
          · exact absurd h2 (List.not_mem_nil r))
  refine ⟨hgood, hgf, hbf, hres, ?_, ?_⟩
  · rw [hfail]
    simp [List.filter_cons, hgf, hbf]
  · rw [hsucc]
    simp [List.filter_cons, hgf, hbf]

/-- An environment whose fill control behaves like Playwright
(string-only). -/
def envPW : Env :=
  { defaultEnv with
      username := some "user"
      password := some "pass"
      fillResult := pwFill }

/-- Claim C10, witness. The theorem applied to the Playwright-like
environment with concrete record values. -/
theorem str_coercion_of_numeric_fields_witness :
    (fill_and_submit_sales_form envPW (goodRow "Jane" "Doe" 10000 9500)).1 =
      Except.ok () ∧
    rowFails envPW (goodRow "Jane" "Doe" 10000 9500) = false ∧
    rowFails envPW (numNameRow 42 "Doe" 10000 9500) = true ∧
    (processRows envPW
        [numNameRow 42 "Doe" 10000 9500, goodRow "Jane" "Doe" 10000 9500]).1 =
      Except.ok () ∧
    ((processRows envPW
        [numNameRow 42 "Doe" 10000 9500,
         goodRow "Jane" "Doe" 10000 9500]).2.countP isFailureLog) = 1 ∧
    ((processRows envPW
        [numNameRow 42 "Doe" 10000 9500,
         goodRow "Jane" "Doe" 10000 9500]).2.countP isSuccessLog) = 1 :=
  str_coercion_of_numeric_fields envPW (fun s v => rfl) (fun s v => rfl)
    (fun s => rfl) "Jane" "Doe" 10000 9500 42

end RSB
